import Mathlib

set_option maxHeartbeats 1000000

/- Shallow embedding of the bdbc-session-explorer path-resolution layer
   (src/bdbc_session_explorer).  Paths are lists of components; the
   filesystem is an oracle record; observable behaviour (stderr messages,
   warnings, filesystem reads, mutating effects) is collected in a trace
   alongside an Except-style result that models Python exceptions. -/

deriving instance DecidableEq for Except

abbrev FPath := List String

def pathChild (p : FPath) (c : String) : FPath := p ++ [c]

def pathParent (p : FPath) : FPath := p.dropLast

def pathName (p : FPath) : String := (p.getLast?).getD ""

/- pathlib stem: final component without its last suffix. -/
def strStem (n : String) : String :=
  let parts := n.splitOn "."
  if parts.length ≤ 1 then n
  else
    let s := String.intercalate "." parts.dropLast
    if s = "" then n else s

def pathStem (p : FPath) : String := strStem (pathName p)

inductive PyError
  | fileNotFound (msg : String)
  | rawDataDirError (msg : String)
  | sessionExplorationError (msg : String)
  | valueError (msg : String)
  | runtimeError (msg : String)
  | notImplementedError (msg : String)
  | attributeError (msg : String)
  | typeError (msg : String)
  | assertionError
deriving Repr, DecidableEq

inductive FSEffect
  | mkdtemp (dir : FPath)
  | copyFile (src dst : FPath)
  | rmtree (dir : FPath)
  | unlink (p : FPath)
  | mkdirParents (dir : FPath)
  | moveFile (src dst : FPath)
  | writeHdf (p : FPath)
  | analyzeCall (config : String) (video : FPath)
deriving Repr, DecidableEq

structure Trace where
  msgs : List String
  warns : List String
  fsReads : Nat
  effects : List FSEffect
deriving Repr, DecidableEq

def Trace.empty : Trace := ⟨[], [], 0, []⟩

def Trace.seq (a b : Trace) : Trace :=
  ⟨a.msgs ++ b.msgs, a.warns ++ b.warns, a.fsReads + b.fsReads, a.effects ++ b.effects⟩

def msgTrace (m : String) : Trace := ⟨[m], [], 0, []⟩

def warnTrace (m : String) : Trace := ⟨[], [m], 0, []⟩

def readsTrace (n : Nat) : Trace := ⟨[], [], n, []⟩

def effTrace (e : FSEffect) : Trace := ⟨[], [], 0, [e]⟩

/- number of external pose-estimation tool invocations recorded in a trace -/
def Trace.toolCalls (t : Trace) : Nat :=
  t.effects.countP (fun e => match e with
    | FSEffect.analyzeCall _ _ => true
    | _ => false)

abbrev Res (α : Type) := Except PyError α × Trace

/- Filesystem oracle: existence checks, glob answers, and whether
   shutil.copy of a given source file fails. -/
structure FS where
  pathExists : FPath → Bool
  glob : FPath → String → List FPath
  copyFails : FPath → Bool

inductive ErrorHandling
  | ignore
  | message
  | warn
  | error
deriving Repr, DecidableEq

/- core.handle_error: dispatch on the error-handling policy.  The Python
   function also takes a warning class; only the warning text is
   observable in this model. -/
def handle_error (msg : String) (type : ErrorHandling) (errorcls : String → PyError) : Res Unit :=
  match type with
  | ErrorHandling.ignore => (Except.ok (), Trace.empty)
  | ErrorHandling.message => (Except.ok (), msgTrace ("***" ++ msg))
  | ErrorHandling.warn => (Except.ok (), warnTrace msg)
  | ErrorHandling.error => (Except.error (errorcls msg), Trace.empty)

def pad2 (n : Nat) : String := if n < 10 then "0" ++ toString n else toString n

def pad4 (n : Nat) : String :=
  if n < 10 then "000" ++ toString n
  else if n < 100 then "00" ++ toString n
  else if n < 1000 then "0" ++ toString n
  else toString n

structure Date where
  year : Nat
  month : Nat
  day : Nat
deriving Repr, DecidableEq

/- strftime FMT_SHORT_DATE, i.e. yymmdd -/
def Date.shortFmt (d : Date) : String := pad2 (d.year % 100) ++ pad2 d.month ++ pad2 d.day

/- strftime FMT_LONG_DATE, i.e. YYYY-MM-DD -/
def Date.longFmt (d : Date) : String := pad4 d.year ++ "-" ++ pad2 d.month ++ "-" ++ pad2 d.day

/- Session.type with its invariant domain; SHORT_TYPES / LONG_TYPES tables. -/
inductive SessionType
  | task
  | restingState
  | sensoryStim
deriving Repr, DecidableEq

def SessionType.longtype : SessionType → String
  | SessionType.task => "task"
  | SessionType.restingState => "resting-state"
  | SessionType.sensoryStim => "sensory-stim"

def SessionType.shorttype : SessionType → String
  | SessionType.task => "task"
  | SessionType.restingState => "rest"
  | SessionType.sensoryStim => "ss"

inductive View
  | body
  | face
  | eye
deriving Repr, DecidableEq

def View.key : View → String
  | View.body => "body"
  | View.face => "face"
  | View.eye => "eye"

/- env.VIDEO_VIEWS: body -> Front, face -> Side, eye -> Eye (in dict order) -/
def View.label : View → String
  | View.body => "Front"
  | View.face => "Side"
  | View.eye => "Eye"

def video_views : List View := [View.body, View.face, View.eye]

structure Availability where
  rawdata : Option Bool
  bodyvideo : Option Bool
  facevideo : Option Bool
  eyevideo : Option Bool
deriving Repr, DecidableEq

def Availability.has_rawdata (a : Availability) : Bool :=
  match a.rawdata with
  | some b => b
  | none => false

def Availability.videoFlag (a : Availability) : View → Option Bool
  | View.body => a.bodyvideo
  | View.face => a.facevideo
  | View.eye => a.eyevideo

def Availability.has_video (a : Availability) (v : View) : Bool :=
  match a.videoFlag v with
  | some b => b
  | none => false

def Availability.has_any_videos (a : Availability) : Bool :=
  video_views.any (fun v => a.has_video v)

structure Session where
  batch : String
  animal : String
  date : Date
  type : SessionType
  dayindex : Int
  sessionindex : Nat
  availability : Availability
  description : String
  comments : String
deriving Repr, DecidableEq

def Session.shortdate (s : Session) : String := Date.shortFmt s.date

def Session.longdate (s : Session) : String := Date.longFmt s.date

def Session.shorttype (s : Session) : String := SessionType.shorttype s.type

def Session.longtype (s : Session) : String := SessionType.longtype s.type

def Session.longday (s : Session) : String :=
  if s.dayindex ≥ 0 then "day" ++ toString s.dayindex
  else "day(" ++ toString s.dayindex ++ ")"

def Session.shortbase (s : Session) : String :=
  if s.type = SessionType.task then s.shortdate ++ "_" ++ s.animal
  else s.shortdate ++ "_" ++ s.animal ++ "_" ++ s.shorttype

def Session.longbase (s : Session) : String :=
  s.animal ++ "_" ++ s.longdate ++ "_" ++ s.longtype ++ "-" ++ s.longday

def Session.has_rawdata (s : Session) : Bool := s.availability.has_rawdata

def Session.has_any_videos (s : Session) : Bool := s.availability.has_any_videos

def Session.has_eyevideo (s : Session) : Bool := s.availability.has_video View.eye

/- str(session.date) for a datetime parsed from a date-only string:
   "YYYY-MM-DD 00:00:00"; used in f-string log messages. -/
def Session.dateAnimal (s : Session) : String := s.longdate ++ " 00:00:00_" ++ s.animal

inductive RawFileVersion
  | v0
  | v1
deriving Repr, DecidableEq

def replaceDashWithUnderscore (s : String) : String :=
  String.map (fun c => if c = '-' then '_' else c) s

def upperFirst (s : String) : String :=
  match s.data with
  | [] => s
  | c :: cs => String.mk (Char.toUpper c :: cs)

def camel_session (s : Session) : String :=
  upperFirst (replaceDashWithUnderscore s.longtype)

def configure_v0 (anidir : FPath) (s : Session) : FPath × String :=
  (pathChild (pathChild anidir (camel_session s)) s.shortdate,
   "RawData_" ++ s.shortdate ++ "_" ++ s.animal ++ "*.h5")

def configure_v1 (anidir : FPath) (s : Session) : FPath × String :=
  (pathChild anidir s.shorttype,
   "RawData_" ++ s.longdate ++ "_" ++ s.animal ++ "*.h5")

def rawdata_parent_pattern (root : FPath) (s : Session) (ver : RawFileVersion) : FPath × String :=
  let anidir := pathChild (pathChild root s.batch) s.animal
  match ver with
  | RawFileVersion.v0 => configure_v0 anidir s
  | RawFileVersion.v1 => configure_v1 anidir s

/- the root loop of rawdata.locate_rawdata_file; one fsRead per
   parent.exists() and one per parent.glob(...) -/
def locate_rawdata_loop (fs : FS) (s : Session) (ver : RawFileVersion) (eh : ErrorHandling) :
    List FPath → Res (Option FPath)
  | [] =>
    let r := handle_error
      ("no raw-data directory found for session: " ++ s.shortdate ++ " " ++ s.animal)
      eh PyError.rawDataDirError
    (r.1.map (fun _ => (none : Option FPath)), r.2)
  | root :: rest =>
    let pp := rawdata_parent_pattern root s ver
    if fs.pathExists pp.1 then
      match fs.glob pp.1 pp.2 with
      | [] =>
        let r := handle_error ("no file found with pattern: " ++ pp.2) eh PyError.fileNotFound
        (r.1.map (fun _ => (none : Option FPath)), (readsTrace 2).seq r.2)
      | [c] => (Except.ok (some c), readsTrace 2)
      | cs =>
        let r := handle_error
          (toString cs.length ++ " files found with pattern: " ++ pp.2)
          eh PyError.rawDataDirError
        (r.1.map (fun _ => (none : Option FPath)), (readsTrace 2).seq r.2)
    else
      let r := locate_rawdata_loop fs s ver eh rest
      (r.1, (readsTrace 1).seq r.2)

def locate_rawdata_file (fs : FS) (s : Session) (rawroot : List FPath) (ver : RawFileVersion)
    (eh : ErrorHandling) (locate_without_rawdata : Bool) : Res (Option FPath) :=
  if !s.has_rawdata && !locate_without_rawdata then (Except.ok none, Trace.empty)
  else locate_rawdata_loop fs s ver eh rawroot

structure VideoFiles where
  session : Option Session
  body : Option FPath
  face : Option FPath
  eye : Option FPath
deriving Repr, DecidableEq

def VideoFiles.empty (s : Option Session) : VideoFiles := ⟨s, none, none, none⟩

def VideoFiles.view (v : VideoFiles) : View → Option FPath
  | View.body => v.body
  | View.face => v.face
  | View.eye => v.eye

/- VideoFiles.directory is self.body.parent; with body = None the Python
   property raises AttributeError, modelled as none (no fallback to
   face or eye). -/
def VideoFiles.directory (v : VideoFiles) : Option FPath :=
  v.body.map pathParent

def VideoFiles.is_not_empty (v : VideoFiles) : Bool :=
  video_views.any (fun w => (v.view w).isSome)

def find_video_dir (s : Session) (videoroot : FPath) : FPath :=
  let datename := s.shortdate
  let sessname := s.shortdate ++ "_" ++ s.animal
  let datename := if s.shorttype ≠ "task" then datename ++ "_" ++ s.shorttype else datename
  let sessname := if s.shorttype ≠ "task" then sessname ++ "_" ++ s.shorttype else sessname
  pathChild (pathChild videoroot datename) sessname

/- videos.find_video_file: raises ValueError on two or more glob matches,
   with no error-policy parameter at all. -/
def find_video_file (fs : FS) (videodir : FPath) (videotype : String) : Res (Option FPath) :=
  if !(fs.pathExists videodir) then (Except.ok none, readsTrace 1)
  else
    match fs.glob videodir ("*_" ++ videotype ++ "_*.mp4") with
    | [] => (Except.ok none, readsTrace 2)
    | [c] => (Except.ok (some c), readsTrace 2)
    | cs =>
      (Except.error (PyError.valueError
        (pathName videodir ++ ": " ++ toString cs.length ++ " candidates found for " ++ videotype)),
       readsTrace 2)

def lookupView : List (View × Option FPath) → View → Option FPath
  | [], _ => none
  | (k, v) :: rest, w => if k = w then v else lookupView rest w

/- the per-view loop body of videos.video_files_from_session -/
def collect_video_paths (fs : FS) (s : Session) (videodir : FPath) (eh : ErrorHandling) :
    List View → Res (List (View × Option FPath))
  | [] => (Except.ok [], Trace.empty)
  | w :: rest =>
    if s.availability.has_video w then
      match find_video_file fs videodir w.label with
      | (Except.error e, t) => (Except.error e, t)
      | (Except.ok vpath, t) =>
        let chk : Res Unit :=
          match vpath with
          | none =>
            handle_error (pathName videodir ++ ": " ++ w.key ++ " video not found") eh
              PyError.sessionExplorationError
          | some p =>
            if fs.pathExists p then (Except.ok (), readsTrace 1)
            else
              let r := handle_error (pathName videodir ++ ": " ++ w.key ++ " video not found") eh
                PyError.sessionExplorationError
              (r.1, (readsTrace 1).seq r.2)
        match chk with
        | (Except.error e, t2) => (Except.error e, t.seq t2)
        | (Except.ok _, t2) =>
          let r := collect_video_paths fs s videodir eh rest
          (r.1.map (fun l => (w, vpath) :: l), t.seq (t2.seq r.2))
    else
      let r := collect_video_paths fs s videodir eh rest
      (r.1.map (fun l => (w, (none : Option FPath)) :: l), r.2)

def video_files_from_session (fs : FS) (s : Session) (videoroot : FPath)
    (force_search : Bool) (eh : ErrorHandling) : Res VideoFiles :=
  if !force_search && !s.has_any_videos then
    (Except.ok (VideoFiles.empty (some s)), Trace.empty)
  else
    let videodir := find_video_dir s videoroot
    if !(fs.pathExists videodir) then
      let r := handle_error (pathName videodir ++ ": video directory not found") eh
        PyError.sessionExplorationError
      (r.1.map (fun _ => VideoFiles.empty (some s)), (readsTrace 1).seq r.2)
    else
      match collect_video_paths fs s videodir eh video_views with
      | (Except.error e, t) => (Except.error e, (readsTrace 1).seq t)
      | (Except.ok l, t) =>
        (Except.ok ⟨some s, lookupView l View.body, lookupView l View.face, lookupView l View.eye⟩,
         (readsTrace 1).seq t)

/- the per-view copy loop inside VideoFiles.copy_to_temp (within the try
   block); a failing shutil.copy aborts the loop -/
def copy_views (fs : FS) (v : VideoFiles) (tempdir : FPath) :
    List View → Res (List (View × Option FPath))
  | [] => (Except.ok [], Trace.empty)
  | w :: rest =>
    let t1 := msgTrace (w.key ++ "...")
    match v.view w with
    | none =>
      let r := copy_views fs v tempdir rest
      (r.1.map (fun l => (w, (none : Option FPath)) :: l), t1.seq r.2)
    | some video =>
      if fs.copyFails video then
        (Except.error (PyError.runtimeError ("copy failed: " ++ pathName video)), t1)
      else
        let vpath := pathChild tempdir (pathName video)
        let r := copy_views fs v tempdir rest
        (r.1.map (fun l => (w, some vpath) :: l),
         t1.seq ((effTrace (FSEffect.copyFile video vpath)).seq r.2))

/- VideoFiles.copy_to_temp.  On any exception inside the try block the
   bare except removes tempdir and then re-raises the captured
   (type, value, traceback) tuple, which in Python 3 raises
   TypeError instead of the original exception. -/
def VideoFiles.copy_to_temp (fs : FS) (v : VideoFiles) (tempdir : FPath) : Res VideoFiles :=
  let t0 := effTrace (FSEffect.mkdtemp tempdir)
  let attempt : Res (List (View × Option FPath)) :=
    match v.directory with
    | none =>
      (Except.error (PyError.attributeError "NoneType object has no attribute name"), Trace.empty)
    | some dir =>
      let r := copy_views fs v tempdir video_views
      (r.1, (msgTrace ("copying " ++ pathName dir ++ ": ")).seq r.2)
  match attempt with
  | (Except.error _, t) =>
    (Except.error (PyError.typeError "exceptions must derive from BaseException"),
     t0.seq (t.seq (effTrace (FSEffect.rmtree tempdir))))
  | (Except.ok l, t) =>
    (Except.ok ⟨v.session, lookupView l View.body, lookupView l View.face, lookupView l View.eye⟩,
     t0.seq (t.seq (msgTrace "done.")))

structure DLCOutputFile where
  directory : Option FPath
  path : Option FPath
deriving Repr, DecidableEq

def DLCOutputFile.empty : DLCOutputFile := ⟨none, none⟩

def DLCOutputFile.from_path : Option FPath → DLCOutputFile
  | none => DLCOutputFile.empty
  | some p => ⟨some (pathParent p), some p⟩

def DLCOutputFile.is_available (f : DLCOutputFile) : Bool :=
  f.directory.isSome && f.path.isSome

/- a DLCOutputFiles field as the dataclass constructor receives it:
   None, a path-like value, or an already-built DLCOutputFile record -/
inductive DLCField
  | pynone
  | pypath (p : FPath)
  | pyfile (f : DLCOutputFile)
deriving Repr, DecidableEq

/- one field branch of DLCOutputFiles.__post_init__ -/
def dlcFieldPostInit : DLCField → DLCField
  | DLCField.pynone => DLCField.pyfile DLCOutputFile.empty
  | DLCField.pypath p => DLCField.pyfile (DLCOutputFile.from_path (some p))
  | DLCField.pyfile f => DLCField.pyfile f

structure DLCOutputFiles where
  session : Option Session
  body : DLCField
  face : DLCField
  eye : DLCField
deriving Repr, DecidableEq

/- dataclass construction always runs __post_init__ -/
def DLCOutputFiles.construct (s : Option Session) (b f e : DLCField) : DLCOutputFiles :=
  ⟨s, dlcFieldPostInit b, dlcFieldPostInit f, dlcFieldPostInit e⟩

def DLCOutputFiles.view (d : DLCOutputFiles) : View → DLCField
  | View.body => d.body
  | View.face => d.face
  | View.eye => d.eye

/- getattr(self, view).is_available(); after construction every field is
   a normalized record, the other branches are unreachable there -/
def DLCField.is_available : DLCField → Bool
  | DLCField.pyfile f => f.is_available
  | _ => false

def DLCField.asFile : DLCField → Option DLCOutputFile
  | DLCField.pyfile f => some f
  | _ => none

def DLCOutputFiles.has_all_files (d : DLCOutputFiles) : Bool :=
  video_views.all (fun w => (d.view w).is_available)

/- DLCOutputFiles.replace: every argument defaults to None and is passed
   through DLCOutputFile.from_path, so fields not supplied are reset to
   the empty record rather than kept from the receiver. -/
def DLCOutputFiles.replace (d : DLCOutputFiles) (b f e : Option FPath) : DLCOutputFiles :=
  DLCOutputFiles.construct d.session
    (DLCField.pyfile (DLCOutputFile.from_path b))
    (DLCField.pyfile (DLCOutputFile.from_path f))
    (DLCField.pyfile (DLCOutputFile.from_path e))

def find_dlc_output_dir (s : Session) (dlcroot : FPath) : FPath :=
  let basename := s.shortdate ++ "_" ++ s.animal
  let basename := if s.type ≠ SessionType.task then basename ++ "_" ++ s.shorttype else basename
  pathChild (pathChild dlcroot s.shortdate) basename

def find_dlc_output (fs : FS) (dlcdir : FPath) (dtype : String) (label : String) :
    Res (Option FPath) :=
  match fs.glob dlcdir ("*_" ++ label ++ "_*DLC*.h5") with
  | [] => (Except.ok none, readsTrace 1)
  | [c] => (Except.ok (some c), readsTrace 1)
  | cs =>
    (Except.error (PyError.valueError
      (pathName dlcdir ++ ": " ++ toString cs.length ++ " candidates found for " ++ dtype)),
     readsTrace 1)

def optPathField : Option FPath → DLCField
  | none => DLCField.pynone
  | some p => DLCField.pypath p

/- dlc.dlc_output_files_from_session; its try/except swallows the
   ValueError from an ambiguous glob into dpath = None -/
def dlc_output_files_from_session (fs : FS) (s : Session) (roots : View → FPath) :
    DLCOutputFiles × Trace :=
  let step := fun (w : View) =>
    let resultsdir := find_dlc_output_dir s (roots w)
    match find_dlc_output fs resultsdir w.key w.label with
    | (Except.ok p, t) => (p, t)
    | (Except.error _, t) => ((none : Option FPath), t)
  let rb := step View.body
  let rf := step View.face
  let rEye := step View.eye
  (DLCOutputFiles.construct (some s) (optPathField rb.1) (optPathField rf.1) (optPathField rEye.1),
   rb.2.seq (rf.2.seq rEye.2))

/- dlc.dlc_config_files: per-view project config paths with an assert
   that each one exists -/
def dlc_config_files (fs : FS) (modelDirs : View → FPath) : Res (View → FPath) :=
  let configs := fun w => pathChild (modelDirs w) "config.yaml"
  (if video_views.all (fun w => fs.pathExists (configs w)) then Except.ok configs
   else Except.error PyError.assertionError,
   readsTrace 3)

/- the nested _find_results_path helper inside ensure_dlc_output -/
def find_results_path (fs : FS) (videopath : FPath) : Res (Option FPath) :=
  match fs.glob (pathParent videopath) (pathStem videopath ++ "DLC*.h5") with
  | [] => (Except.ok none, readsTrace 1)
  | [c] => (Except.ok (some c), readsTrace 1)
  | cs =>
    (Except.error (PyError.runtimeError
      (toString cs.length ++ " candidates found for DLC output: " ++ pathName videopath)),
     readsTrace 1)

/- the per-view try-block loop of ensure_dlc_output.  analyzeOutcome
   models whether the external dlc.analyze_videos call raises. -/
def ensure_loop (fs : FS) (session : Session) (configs : View → FPath)
    (files : DLCOutputFiles) (temp_videos : VideoFiles) (overwrite : Bool)
    (analyzeOutcome : View → Option PyError) :
    List View → Res (List (View × FPath))
  | [] => (Except.ok [], Trace.empty)
  | w :: rest =>
    let source_video := temp_videos.view w
    let output_info := files.view w
    let project_config := String.intercalate "/" (configs w)
    match source_video with
    | none =>
      ensure_loop fs session configs files temp_videos overwrite analyzeOutcome rest
    | some video =>
      if !overwrite && output_info.is_available then
        let t1 := msgTrace (session.dateAnimal ++ ": " ++ w.key ++ " video has been already analyzed")
        let r := ensure_loop fs session configs files temp_videos overwrite analyzeOutcome rest
        (r.1, t1.seq r.2)
      else
        let tCall := effTrace (FSEffect.analyzeCall project_config video)
        match analyzeOutcome w with
        | some e => (Except.error e, tCall)
        | none =>
          match find_results_path fs video with
          | (Except.error e, t2) => (Except.error e, tCall.seq t2)
          | (Except.ok results_file, t2) =>
            let t3 := msgTrace (session.dateAnimal ++ ": " ++ w.key ++ ": copying the results...")
            match output_info.asFile with
            | none =>
              (Except.error (PyError.attributeError "field is not a DLCOutputFile record"),
               tCall.seq (t2.seq t3))
            | some info =>
              match results_file, info.directory with
              | none, _ =>
                (Except.error (PyError.attributeError "NoneType object has no attribute name"),
                 tCall.seq (t2.seq t3))
              | some _, none =>
                (Except.error (PyError.typeError "unsupported operand type for slash"),
                 tCall.seq (t2.seq t3))
              | some rfile, some outdir =>
                let output_path := pathChild outdir (pathName rfile)
                let t4 :=
                  if fs.pathExists output_path then
                    (readsTrace 1).seq (effTrace (FSEffect.unlink output_path))
                  else if !(fs.pathExists outdir) then
                    (readsTrace 2).seq (effTrace (FSEffect.mkdirParents outdir))
                  else readsTrace 2
                let t5 := (effTrace (FSEffect.moveFile rfile output_path)).seq (msgTrace "done.")
                let r := ensure_loop fs session configs files temp_videos overwrite analyzeOutcome rest
                (r.1.map (fun l => (w, output_path) :: l),
                 tCall.seq (t2.seq (t3.seq (t4.seq (t5.seq r.2)))))

/- the finally block of ensure_dlc_output:
   shutil.rmtree(temp_videos.directory); this fails with AttributeError
   when the staged bundle has no body video -/
def ensure_cleanup (temp_videos : VideoFiles) : Res Unit :=
  match temp_videos.directory with
  | some d => (Except.ok (), effTrace (FSEffect.rmtree d))
  | none =>
    (Except.error (PyError.attributeError "NoneType object has no attribute parent"), Trace.empty)

/- dlc.ensure_dlc_output.  videos.session = None is modelled as failing
   up front; in Python the None would first be dereferenced in a log
   f-string.  All claims instantiate a real session. -/
def ensure_dlc_output (fs : FS) (videos : VideoFiles) (modelDirs : View → FPath)
    (resultsRoots : View → FPath) (overwrite : Bool) (dlcInstalled : Bool)
    (analyzeOutcome : View → Option PyError) (tempdir : FPath) : Res DLCOutputFiles :=
  match dlc_config_files fs modelDirs with
  | (Except.error e, t0) => (Except.error e, t0)
  | (Except.ok configs, t0) =>
    match videos.session with
    | none =>
      (Except.error (PyError.attributeError "NoneType object has no attribute date"), t0)
    | some session =>
      let ft := dlc_output_files_from_session fs session resultsRoots
      let files := ft.1
      let t1 := t0.seq ft.2
      let t2 :=
        if !overwrite && files.has_all_files then
          t1.seq (msgTrace (session.dateAnimal ++ ": all videos have been already analyzed"))
        else t1
      if !dlcInstalled then
        (Except.error (PyError.notImplementedError "install DeepLabCut to perform landmark estimation"),
         t2)
      else
        match VideoFiles.copy_to_temp fs videos tempdir with
        | (Except.error e, t3) => (Except.error e, t2.seq t3)
        | (Except.ok temp_videos, t3) =>
          let lr := ensure_loop fs session configs files temp_videos overwrite analyzeOutcome video_views
          let cr := ensure_cleanup temp_videos
          let tAll := t2.seq (t3.seq (lr.2.seq cr.2))
          match cr.1 with
          | Except.error e => (Except.error e, tAll)
          | Except.ok _ =>
            match lr.1 with
            | Except.error e => (Except.error e, tAll)
            | Except.ok newly =>
              (Except.ok (files.replace (newly.lookup View.body) (newly.lookup View.face)
                (newly.lookup View.eye)), tAll)

/- pupil.process_eye_file; the external fit_hdf result is opaque; only
   the HDF write and the parent-directory creation are observable. -/
def process_eye_file (fs : FS) (pupfInstalled : Bool) (_eyefile : DLCField) (pupilfile : FPath) :
    Res Unit :=
  if !pupfInstalled then
    (Except.error (PyError.runtimeError "failed to load ks-pupilfitting package"), Trace.empty)
  else
    let t1 :=
      if fs.pathExists (pathParent pupilfile) then readsTrace 1
      else (readsTrace 1).seq (effTrace (FSEffect.mkdirParents (pathParent pupilfile)))
    (Except.ok (), t1.seq (effTrace (FSEffect.writeHdf pupilfile)))

/- pupil.fit_pupil.  The eye-is-None branch formats dlc_output.directory,
   an attribute DLCOutputFiles does not define, so Python raises
   AttributeError while building that message. -/
def fit_pupil (fs : FS) (dlc_output : DLCOutputFiles) (pupilfile : FPath)
    (overwrite : Bool) (pupfInstalled : Bool) : Res (Option FPath) :=
  match dlc_output.eye with
  | DLCField.pynone =>
    (Except.error (PyError.attributeError "DLCOutputFiles object has no attribute directory"),
     Trace.empty)
  | eyefield =>
    if !overwrite then
      if fs.pathExists pupilfile then
        match dlc_output.session with
        | none =>
          (Except.error (PyError.attributeError "NoneType object has no attribute date"),
           readsTrace 1)
        | some session =>
          (Except.ok none,
           (readsTrace 1).seq (msgTrace (session.dateAnimal ++ ": pupil already fitted")))
      else
        let r := process_eye_file fs pupfInstalled eyefield pupilfile
        (r.1.map (fun _ => some pupilfile), (readsTrace 1).seq r.2)
    else
      let r := process_eye_file fs pupfInstalled eyefield pupilfile
      (r.1.map (fun _ => some pupilfile), r.2)

/- decidable suffix test used to count "already analyzed" log lines -/
def strEndsWith (s suffix : String) : Bool :=
  List.isPrefixOf suffix.data.reverse s.data.reverse

/- concrete fixtures -/

def avAll : Availability := ⟨some true, some true, some true, some true⟩

def avNone : Availability := ⟨some false, some false, some false, some false⟩

def avEyeOnly : Availability := ⟨some false, some false, some false, some true⟩

def sess0 : Session :=
  ⟨"run1", "A01", ⟨2024, 1, 1⟩, SessionType.task, 1, 1, avAll, "", ""⟩

def sessNoData : Session :=
  ⟨"run1", "A01", ⟨2024, 1, 1⟩, SessionType.task, 1, 1, avNone, "", ""⟩

def sessEye : Session :=
  ⟨"run1", "A01", ⟨2024, 1, 1⟩, SessionType.task, 1, 1, avEyeOnly, "", ""⟩

def rawParent0 : FPath := ["raw", "run1", "A01", "task"]

def fsRawEmpty : FS := ⟨fun p => p == rawParent0, fun _ _ => [], fun _ => false⟩

def vidDir0 : FPath := ["vids", "240101", "240101_A01"]

def fsVidAmb : FS :=
  ⟨fun p => p == vidDir0,
   fun d pat =>
     if d == vidDir0 && pat == "*_Eye_*.mp4" then
       [pathChild vidDir0 "a_Eye_1.mp4", pathChild vidDir0 "b_Eye_2.mp4"]
     else [],
   fun _ => false⟩

def modelDirs0 : View → FPath := fun w => ["models", View.key w]

def dlcRoots0 : View → FPath := fun w => ["dlcres", View.key w]

def dlcDirB : FPath := ["dlcres", "body", "240101", "240101_A01"]

def dlcDirF : FPath := ["dlcres", "face", "240101", "240101_A01"]

def dlcDirE : FPath := ["dlcres", "eye", "240101", "240101_A01"]

def outB : FPath := pathChild dlcDirB "v_Front_1DLC_model.h5"

def outF : FPath := pathChild dlcDirF "v_Side_1DLC_model.h5"

def outE : FPath := pathChild dlcDirE "v_Eye_1DLC_model.h5"

def fsAllDone : FS :=
  ⟨fun p =>
     p == (["models", "body", "config.yaml"] : FPath)
     || p == (["models", "face", "config.yaml"] : FPath)
     || p == (["models", "eye", "config.yaml"] : FPath),
   fun d pat =>
     if d == dlcDirB && pat == "*_Front_*DLC*.h5" then [outB]
     else if d == dlcDirF && pat == "*_Side_*DLC*.h5" then [outF]
     else if d == dlcDirE && pat == "*_Eye_*DLC*.h5" then [outE]
     else [],
   fun _ => false⟩

def videos0 : VideoFiles :=
  ⟨some sess0,
   some ["vids", "240101", "240101_A01", "v_Front_1.mp4"],
   some ["vids", "240101", "240101_A01", "v_Side_1.mp4"],
   some ["vids", "240101", "240101_A01", "v_Eye_1.mp4"]⟩

def td0 : FPath := ["tmp", "dlc_1"]

def filesAllDone : DLCOutputFiles := (dlc_output_files_from_session fsAllDone sess0 dlcRoots0).1

def ensureAllDone : Res DLCOutputFiles :=
  ensure_dlc_output fsAllDone videos0 modelDirs0 dlcRoots0 false true (fun _ => none) td0

def fsRawAmb : FS :=
  ⟨fun p => p == rawParent0,
   fun d pat =>
     if d == rawParent0 && pat == "RawData_2024-01-01_A01*.h5" then
       [pathChild rawParent0 "RawData_2024-01-01_A01_a.h5",
        pathChild rawParent0 "RawData_2024-01-01_A01_b.h5"]
     else [],
   fun _ => false⟩

def fsDlcAmb : FS :=
  ⟨fun _ => false,
   fun d pat =>
     if d == dlcDirE && pat == "*_Eye_*DLC*.h5" then
       [pathChild dlcDirE "a_Eye_1DLC_x.h5", pathChild dlcDirE "b_Eye_2DLC_x.h5"]
     else [],
   fun _ => false⟩

def dlcEyeDone : DLCOutputFiles :=
  DLCOutputFiles.construct (some sess0) DLCField.pynone DLCField.pynone (DLCField.pypath outE)

def pupTarget : FPath := ["pup", "240101_A01", "240101_A01_pupilfitting.h5"]

def fsPupExists : FS := ⟨fun p => p == pupTarget, fun _ _ => [], fun _ => false⟩

def vNoBody : VideoFiles := ⟨some sess0, none, some ["x", "f.mp4"], some ["x", "e.mp4"]⟩

def fsCfgOnly : FS :=
  ⟨fun p =>
     p == (["models", "body", "config.yaml"] : FPath)
     || p == (["models", "face", "config.yaml"] : FPath)
     || p == (["models", "eye", "config.yaml"] : FPath),
   fun _ _ => [], fun _ => false⟩

def fsCopyFail : FS := ⟨fun _ => false, fun _ _ => [], fun _ => true⟩

/-- C7: for every valid session descriptor, shortbase and longbase are
deterministic pure functions of the component fields: shortbase is
shortdate_animal when the type is task and shortdate_animal_shorttype
otherwise, longbase is animal_longdate_longtype-longday, and two
sessions with equal components yield equal base strings. -/
theorem C7_base_formatting (s s2 : Session) :
    (s.shortbase = if s.type = SessionType.task then s.shortdate ++ "_" ++ s.animal
      else s.shortdate ++ "_" ++ s.animal ++ "_" ++ s.shorttype)
    ∧ s.longbase = s.animal ++ "_" ++ s.longdate ++ "_" ++ s.longtype ++ "-" ++ s.longday
    ∧ (s.date = s2.date → s.animal = s2.animal → s.type = s2.type → s.dayindex = s2.dayindex →
        s.shortbase = s2.shortbase ∧ s.longbase = s2.longbase) := by
  refine ⟨rfl, rfl, ?_⟩
  intro hd ha ht hi
  constructor
  · simp [Session.shortbase, Session.shortdate, Session.shorttype, hd, ha, ht]
  · simp [Session.longbase, Session.longdate, Session.longtype, Session.longday, hd, ha, ht, hi]

theorem C7_base_formatting_witness :
    sess0.shortbase = sessNoData.shortbase ∧ sess0.longbase = sessNoData.longbase :=
  (C7_base_formatting sess0 sessNoData).2.2 rfl rfl rfl rfl

/-- C5: a session whose availability flag for a modality is false, with
resolution not forced, resolves to no file with an empty trace: zero
filesystem reads, for every filesystem oracle. -/
theorem C5_skip_unavailable (fs : FS) (s : Session) (roots : List FPath) (ver : RawFileVersion)
    (eh : ErrorHandling) (videoroot : FPath) :
    (s.has_rawdata = false →
      locate_rawdata_file fs s roots ver eh false = (Except.ok none, Trace.empty))
    ∧ (s.has_any_videos = false →
      video_files_from_session fs s videoroot false eh
        = (Except.ok (VideoFiles.empty (some s)), Trace.empty)) := by
  constructor
  · intro h
    simp [locate_rawdata_file, h]
  · intro h
    simp [video_files_from_session, h]

theorem C5_skip_unavailable_witness :
    locate_rawdata_file fsRawEmpty sessNoData [["raw"]] RawFileVersion.v1 ErrorHandling.warn false
      = (Except.ok none, Trace.empty)
    ∧ video_files_from_session fsRawEmpty sessNoData ["vids"] false ErrorHandling.warn
      = (Except.ok (VideoFiles.empty (some sessNoData)), Trace.empty) :=
  ⟨(C5_skip_unavailable fsRawEmpty sessNoData [["raw"]] RawFileVersion.v1 ErrorHandling.warn
      ["vids"]).1 (by decide),
   (C5_skip_unavailable fsRawEmpty sessNoData [["raw"]] RawFileVersion.v1 ErrorHandling.warn
      ["vids"]).2 (by decide)⟩

/-- C3: raw-data resolution over an existing parent directory whose glob
yields zero matches raises under the error policy, returns none with
exactly one warning (and no message) under the warn policy, and returns
none silently under the ignore policy. -/
theorem C3_zero_matches (fs : FS) (s : Session) (root : FPath) (rest : List FPath)
    (ver : RawFileVersion)
    (hr : s.has_rawdata = true)
    (hp : fs.pathExists (rawdata_parent_pattern root s ver).1 = true)
    (hg : fs.glob (rawdata_parent_pattern root s ver).1 (rawdata_parent_pattern root s ver).2
      = []) :
    locate_rawdata_file fs s (root :: rest) ver ErrorHandling.error false
      = (Except.error (PyError.fileNotFound
          ("no file found with pattern: " ++ (rawdata_parent_pattern root s ver).2)),
         ⟨[], [], 2, []⟩)
    ∧ locate_rawdata_file fs s (root :: rest) ver ErrorHandling.warn false
      = (Except.ok none,
         ⟨[], ["no file found with pattern: " ++ (rawdata_parent_pattern root s ver).2], 2, []⟩)
    ∧ locate_rawdata_file fs s (root :: rest) ver ErrorHandling.ignore false
      = (Except.ok none, ⟨[], [], 2, []⟩) := by
  refine ⟨?_, ?_, ?_⟩ <;>
    simp [locate_rawdata_file, locate_rawdata_loop, hr, hp, hg, handle_error,
      readsTrace, warnTrace, Trace.seq, Trace.empty, Except.map]

theorem C3_zero_matches_witness :
    locate_rawdata_file fsRawEmpty sess0 [["raw"], ["other"]] RawFileVersion.v1
        ErrorHandling.warn false
      = (Except.ok none,
         ⟨[], ["no file found with pattern: RawData_2024-01-01_A01*.h5"], 2, []⟩)
    ∧ locate_rawdata_file fsRawEmpty sess0 [["raw"], ["other"]] RawFileVersion.v1
        ErrorHandling.ignore false
      = (Except.ok none, ⟨[], [], 2, []⟩) := by
  have h := C3_zero_matches fsRawEmpty sess0 ["raw"] [["other"]] RawFileVersion.v1
    (by decide) (by decide) (by decide)
  exact ⟨h.2.1, h.2.2⟩

/-- C4: raw-data roots are tried in order; a root whose parent directory
does not exist is skipped, and the first root with an existing parent
directory is committed to: with zero matches there the resolver reports
not-found (raising only under the error policy) and the result does not
depend on the remaining roots. -/
theorem C4_first_existing_root (fs : FS) (s : Session) (ver : RawFileVersion)
    (eh : ErrorHandling) (root : FPath) (rest rest2 : List FPath)
    (hr : s.has_rawdata = true) :
    (fs.pathExists (rawdata_parent_pattern root s ver).1 = false →
      locate_rawdata_file fs s (root :: rest) ver eh false
        = ((locate_rawdata_loop fs s ver eh rest).1,
           (readsTrace 1).seq (locate_rawdata_loop fs s ver eh rest).2))
    ∧ (fs.pathExists (rawdata_parent_pattern root s ver).1 = true →
       fs.glob (rawdata_parent_pattern root s ver).1 (rawdata_parent_pattern root s ver).2 = [] →
       locate_rawdata_file fs s (root :: rest) ver eh false
         = locate_rawdata_file fs s (root :: rest2) ver eh false
       ∧ (eh = ErrorHandling.error →
           (locate_rawdata_file fs s (root :: rest) ver eh false).1
             = Except.error (PyError.fileNotFound
                 ("no file found with pattern: " ++ (rawdata_parent_pattern root s ver).2)))
       ∧ (eh ≠ ErrorHandling.error →
           (locate_rawdata_file fs s (root :: rest) ver eh false).1 = Except.ok none)) := by
  constructor
  · intro hp
    simp [locate_rawdata_file, locate_rawdata_loop, hr, hp]
  · intro hp hg
    refine ⟨?_, ?_, ?_⟩
    · simp [locate_rawdata_file, locate_rawdata_loop, hr, hp, hg]
    · intro he
      subst he
      simp [locate_rawdata_file, locate_rawdata_loop, hr, hp, hg, handle_error, Except.map]
    · intro he
      cases eh <;>
        simp_all [locate_rawdata_file, locate_rawdata_loop, handle_error, hp, hg, Except.map]

theorem C4_first_existing_root_witness :
    locate_rawdata_file fsRawEmpty sess0 [["raw"], ["other"]] RawFileVersion.v1
        ErrorHandling.warn false
      = locate_rawdata_file fsRawEmpty sess0 [["raw"], ["backup"]] RawFileVersion.v1
        ErrorHandling.warn false
    ∧ (locate_rawdata_file fsRawEmpty sess0 [["raw"], ["other"]] RawFileVersion.v1
        ErrorHandling.warn false).1 = Except.ok none := by
  have h := (C4_first_existing_root fsRawEmpty sess0 RawFileVersion.v1 ErrorHandling.warn
    ["raw"] [["other"]] [["backup"]] (by decide)).2 (by decide) (by decide)
  exact ⟨h.1, h.2.2 (by decide)⟩

/-- C2 counterexample: with two matching eye videos and the ignore
policy configured, video resolution raises a ValueError rather than
invoking the error policy on an ambiguous condition (the claim says the
policy decides whether the resolver returns none or raises for every
modality). -/
theorem C2_counterexample :
    (video_files_from_session fsVidAmb sessEye ["vids"] false ErrorHandling.ignore).1
      = Except.error (PyError.valueError "240101_A01: 2 candidates found for Eye")
    ∧ (video_files_from_session fsVidAmb sessEye ["vids"] false ErrorHandling.ignore).2.warns = []
    ∧ (video_files_from_session fsVidAmb sessEye ["vids"] false ErrorHandling.ignore).2.msgs
      = [] := by
  decide

/-- C2 amended: ambiguity handling is modality-specific.  Raw-data
resolution passes two-or-more matches through the configured error
policy (raising only under the error policy, otherwise returning none);
video resolution raises ValueError on two or more matches for every
policy value, without consulting the policy; pose-estimation-output
resolution raises ValueError in find_dlc_output on two or more matches
and its caller dlc_output_files_from_session swallows that into a None
field, normalized to an empty record. -/
theorem C2_ambiguous_by_modality (fs : FS) (s : Session) (root : FPath) (rest : List FPath)
    (ver : RawFileVersion) (eh : ErrorHandling) (c1 c2 : FPath) (cs : List FPath)
    (hr : s.has_rawdata = true)
    (hp : fs.pathExists (rawdata_parent_pattern root s ver).1 = true)
    (hg : fs.glob (rawdata_parent_pattern root s ver).1 (rawdata_parent_pattern root s ver).2
      = c1 :: c2 :: cs) :
    ((eh = ErrorHandling.error →
       (locate_rawdata_file fs s (root :: rest) ver eh false).1
         = Except.error (PyError.rawDataDirError
             (toString (cs.length + 2) ++ " files found with pattern: "
               ++ (rawdata_parent_pattern root s ver).2)))
     ∧ (eh ≠ ErrorHandling.error →
       (locate_rawdata_file fs s (root :: rest) ver eh false).1 = Except.ok none))
    ∧ (∀ (fs2 : FS) (videodir : FPath) (vt : String) (d1 d2 : FPath) (ds : List FPath),
        fs2.pathExists videodir = true →
        fs2.glob videodir ("*_" ++ vt ++ "_*.mp4") = d1 :: d2 :: ds →
        (find_video_file fs2 videodir vt).1
          = Except.error (PyError.valueError
              (pathName videodir ++ ": " ++ toString (ds.length + 2)
                ++ " candidates found for " ++ vt)))
    ∧ (∀ (fs3 : FS) (dlcdir : FPath) (dt lb : String) (d1 d2 : FPath) (ds : List FPath),
        fs3.glob dlcdir ("*_" ++ lb ++ "_*DLC*.h5") = d1 :: d2 :: ds →
        (find_dlc_output fs3 dlcdir dt lb).1
          = Except.error (PyError.valueError
              (pathName dlcdir ++ ": " ++ toString (ds.length + 2)
                ++ " candidates found for " ++ dt)))
    ∧ (∀ (fs3 : FS) (s2 : Session) (roots : View → FPath) (d1 d2 : FPath) (ds : List FPath),
        fs3.glob (find_dlc_output_dir s2 (roots View.eye)) "*_Eye_*DLC*.h5" = d1 :: d2 :: ds →
        (dlc_output_files_from_session fs3 s2 roots).1.eye
          = DLCField.pyfile DLCOutputFile.empty) := by
  refine ⟨⟨?_, ?_⟩, ?_, ?_, ?_⟩
  · intro he
    subst he
    simp [locate_rawdata_file, locate_rawdata_loop, hr, hp, hg, handle_error, Except.map]
  · intro he
    cases eh <;>
      simp_all [locate_rawdata_file, locate_rawdata_loop, handle_error, hp, hg, Except.map]
  · intro fs2 videodir vt d1 d2 ds hpe hge
    simp [find_video_file, hpe, hge]
  · intro fs3 dlcdir dt lb d1 d2 ds hge
    simp [find_dlc_output, hge]
  · intro fs3 s2 roots d1 d2 ds hge
    simp [dlc_output_files_from_session, find_dlc_output, hge, View.label, View.key,
      optPathField, DLCOutputFiles.construct, dlcFieldPostInit, DLCOutputFile.empty]

theorem C2_ambiguous_by_modality_witness :
    (locate_rawdata_file fsRawAmb sess0 [["raw"]] RawFileVersion.v1 ErrorHandling.warn false).1
      = Except.ok none
    ∧ (find_video_file fsVidAmb vidDir0 "Eye").1
      = Except.error (PyError.valueError "240101_A01: 2 candidates found for Eye")
    ∧ (find_dlc_output fsDlcAmb dlcDirE "eye" "Eye").1
      = Except.error (PyError.valueError "240101_A01: 2 candidates found for eye")
    ∧ (dlc_output_files_from_session fsDlcAmb sess0 dlcRoots0).1.eye
      = DLCField.pyfile DLCOutputFile.empty := by
  have h := C2_ambiguous_by_modality fsRawAmb sess0 ["raw"] [] RawFileVersion.v1
    ErrorHandling.warn (pathChild rawParent0 "RawData_2024-01-01_A01_a.h5")
    (pathChild rawParent0 "RawData_2024-01-01_A01_b.h5") []
    (by decide) (by decide) (by decide)
  refine ⟨h.1.2 (by decide), ?_, ?_, ?_⟩
  · exact h.2.1 fsVidAmb vidDir0 "Eye" (pathChild vidDir0 "a_Eye_1.mp4")
      (pathChild vidDir0 "b_Eye_2.mp4") [] (by decide) (by decide)
  · exact h.2.2.1 fsDlcAmb dlcDirE "eye" "Eye" (pathChild dlcDirE "a_Eye_1DLC_x.h5")
      (pathChild dlcDirE "b_Eye_2DLC_x.h5") [] (by decide)
  · exact h.2.2.2 fsDlcAmb sess0 dlcRoots0 (pathChild dlcDirE "a_Eye_1DLC_x.h5")
      (pathChild dlcDirE "b_Eye_2DLC_x.h5") [] (by decide)

/-- C8: fit_pupil on a bundle with a located eye record: when the target
exists and overwrite is false it logs one message and returns no value
with no filesystem effects; otherwise, with the fitting tool installed,
it invokes the tool and writes the result to the target, creating the
parent directory exactly when it does not exist. -/
theorem C8_fit_pupil (fs : FS) (d : DLCOutputFiles) (p : FPath) (inst : Bool)
    (f : DLCOutputFile) (s : Session)
    (he : d.eye = DLCField.pyfile f) (hs : d.session = some s) :
    (fs.pathExists p = true →
      fit_pupil fs d p false inst
        = (Except.ok none, ⟨[s.dateAnimal ++ ": pupil already fitted"], [], 1, []⟩))
    ∧ (fs.pathExists p = false → inst = true →
      fit_pupil fs d p false inst
        = (Except.ok (some p),
           ⟨[], [], 2,
            if fs.pathExists (pathParent p) then [FSEffect.writeHdf p]
            else [FSEffect.mkdirParents (pathParent p), FSEffect.writeHdf p]⟩))
    ∧ (inst = true →
      fit_pupil fs d p true inst
        = (Except.ok (some p),
           ⟨[], [], 1,
            if fs.pathExists (pathParent p) then [FSEffect.writeHdf p]
            else [FSEffect.mkdirParents (pathParent p), FSEffect.writeHdf p]⟩)) := by
  refine ⟨?_, ?_, ?_⟩
  · intro hp
    simp [fit_pupil, he, hs, hp, readsTrace, msgTrace, Trace.seq]
  · intro hp hi
    subst hi
    by_cases hpp : fs.pathExists (pathParent p) <;>
      simp [fit_pupil, he, hs, hp, hpp, process_eye_file, readsTrace, effTrace, Trace.seq,
        Except.map]
  · intro hi
    subst hi
    by_cases hpp : fs.pathExists (pathParent p) <;>
      simp [fit_pupil, he, process_eye_file, readsTrace, effTrace, Trace.seq, Except.map, hpp]

theorem C8_fit_pupil_witness :
    fit_pupil fsPupExists dlcEyeDone pupTarget false true
      = (Except.ok none, ⟨["2024-01-01 00:00:00_A01: pupil already fitted"], [], 1, []⟩)
    ∧ fit_pupil fsRawEmpty dlcEyeDone pupTarget false true
      = (Except.ok (some pupTarget),
         ⟨[], [], 2, [FSEffect.mkdirParents ["pup", "240101_A01"],
           FSEffect.writeHdf pupTarget]⟩) := by
  have h := C8_fit_pupil fsPupExists dlcEyeDone pupTarget true ⟨some dlcDirE, some outE⟩ sess0
    (by decide) (by decide)
  have h2 := C8_fit_pupil fsRawEmpty dlcEyeDone pupTarget true ⟨some dlcDirE, some outE⟩ sess0
    (by decide) (by decide)
  exact ⟨h.1 (by decide), h2.2.1 (by decide) rfl⟩

/-- C9: a VideoFiles bundle whose body is None has no directory even
when face and eye are present (no fallback), and the finally-block
cleanup of ensure_dlc_output is defined exactly when the staged bundle
holds a body video: with body None it raises AttributeError and removes
nothing; with a body path it removes that path's parent directory. -/
theorem C9_directory_requires_body (v tv : VideoFiles) (p : FPath) :
    (v.body = none → v.directory = none)
    ∧ (tv.body = none →
        (ensure_cleanup tv).1
          = Except.error (PyError.attributeError "NoneType object has no attribute parent")
        ∧ (ensure_cleanup tv).2.effects = [])
    ∧ (tv.body = some p →
        (ensure_cleanup tv).1 = Except.ok ()
        ∧ (ensure_cleanup tv).2.effects = [FSEffect.rmtree (pathParent p)]) := by
  refine ⟨?_, ?_, ?_⟩ <;> intro h <;>
    simp [VideoFiles.directory, ensure_cleanup, h, effTrace, Trace.empty]

theorem C9_directory_requires_body_witness :
    vNoBody.directory = none
    ∧ (ensure_cleanup vNoBody).1
      = Except.error (PyError.attributeError "NoneType object has no attribute parent")
    ∧ (ensure_cleanup vNoBody).2.effects = [] := by
  have h := C9_directory_requires_body vNoBody vNoBody ["q"]
  exact ⟨h.1 rfl, (h.2.1 rfl).1, (h.2.1 rfl).2⟩

/- helper for C10: with a normalized eye field, fit_pupil can never take
   the eye-is-None branch -/
lemma fit_pupil_eye_record (fs : FS) (d : DLCOutputFiles) (p : FPath) (ow inst : Bool)
    (g : DLCOutputFile) (he : d.eye = DLCField.pyfile g) :
    (fit_pupil fs d p ow inst).1
      ≠ Except.error (PyError.attributeError
          "DLCOutputFiles object has no attribute directory") := by
  cases ow <;> by_cases hp : fs.pathExists p <;> cases hsess : d.session <;>
    cases inst <;>
      simp [fit_pupil, he, hsess, hp, process_eye_file, Except.map, readsTrace, msgTrace,
        Trace.seq, Trace.empty]

/-- C10: every DLCOutputFiles produced by the dataclass constructor
(running post-init) or by replace has DLCOutputFile records in all
three view fields, never None; consequently fit_pupil's branch raising
for a None eye field is unreachable on such bundles, even when no eye
output file was located. -/
theorem C10_fields_always_records (s : Option Session) (b f e : DLCField) :
    (∃ g, (DLCOutputFiles.construct s b f e).body = DLCField.pyfile g)
    ∧ (∃ g, (DLCOutputFiles.construct s b f e).face = DLCField.pyfile g)
    ∧ (∃ g, (DLCOutputFiles.construct s b f e).eye = DLCField.pyfile g)
    ∧ (∀ (d : DLCOutputFiles) (bo fo eo : Option FPath),
        (∃ g, (DLCOutputFiles.replace d bo fo eo).body = DLCField.pyfile g)
        ∧ (∃ g, (DLCOutputFiles.replace d bo fo eo).face = DLCField.pyfile g)
        ∧ (∃ g, (DLCOutputFiles.replace d bo fo eo).eye = DLCField.pyfile g))
    ∧ (∀ (fs : FS) (p : FPath) (ow inst : Bool),
        (fit_pupil fs (DLCOutputFiles.construct s b f e) p ow inst).1
          ≠ Except.error (PyError.attributeError
              "DLCOutputFiles object has no attribute directory")) := by
  refine ⟨?_, ?_, ?_, ?_, ?_⟩
  · cases b <;> exact ⟨_, rfl⟩
  · cases f <;> exact ⟨_, rfl⟩
  · cases e <;> exact ⟨_, rfl⟩
  · intro d bo fo eo
    exact ⟨⟨_, rfl⟩, ⟨_, rfl⟩, ⟨_, rfl⟩⟩
  · intro fs p ow inst
    cases e with
    | pynone =>
      exact fit_pupil_eye_record fs _ p ow inst DLCOutputFile.empty rfl
    | pypath q =>
      exact fit_pupil_eye_record fs _ p ow inst (DLCOutputFile.from_path (some q)) rfl
    | pyfile g =>
      exact fit_pupil_eye_record fs _ p ow inst g rfl

theorem C10_fields_always_records_witness :
    (fit_pupil fsRawEmpty
        (DLCOutputFiles.construct (some sess0) DLCField.pynone DLCField.pynone DLCField.pynone)
        pupTarget false true).1
      ≠ Except.error (PyError.attributeError
          "DLCOutputFiles object has no attribute directory") :=
  (C10_fields_always_records (some sess0) DLCField.pynone DLCField.pynone
    DLCField.pynone).2.2.2.2 fsRawEmpty pupTarget false true

lemma pathParent_pathChild (p : FPath) (c : String) : pathParent (pathChild p c) = p := by
  simp [pathParent, pathChild]

/-- C1 amended: with overwrite false and all three view outputs already
located, ensure_dlc_output invokes the external tool zero times, but it
does not return early: it logs the all-analyzed message plus one
per-view already-analyzed message for each staged video, stages and
removes the temporary directory, and returns a bundle whose three view
fields are reset to empty records by replace — not the existing
bundle. -/
theorem C1_all_done_behaviour (fs : FS) (videos : VideoFiles) (modelDirs roots : View → FPath)
    (ao : View → Option PyError) (td : FPath) (s : Session) (pb pf pe qb qf qe : FPath)
    (hs : videos.session = some s)
    (hb : videos.body = some pb) (hf : videos.face = some pf) (hev : videos.eye = some pe)
    (hcb : fs.pathExists (pathChild (modelDirs View.body) "config.yaml") = true)
    (hcf : fs.pathExists (pathChild (modelDirs View.face) "config.yaml") = true)
    (hce : fs.pathExists (pathChild (modelDirs View.eye) "config.yaml") = true)
    (hgb : fs.glob (find_dlc_output_dir s (roots View.body)) "*_Front_*DLC*.h5" = [qb])
    (hgf : fs.glob (find_dlc_output_dir s (roots View.face)) "*_Side_*DLC*.h5" = [qf])
    (hge : fs.glob (find_dlc_output_dir s (roots View.eye)) "*_Eye_*DLC*.h5" = [qe])
    (hkb : fs.copyFails pb = false) (hkf : fs.copyFails pf = false)
    (hke : fs.copyFails pe = false) :
    ensure_dlc_output fs videos modelDirs roots false true ao td
      = (Except.ok ⟨some s, DLCField.pyfile ⟨none, none⟩, DLCField.pyfile ⟨none, none⟩,
          DLCField.pyfile ⟨none, none⟩⟩,
         ⟨[s.dateAnimal ++ ": all videos have been already analyzed",
           "copying " ++ pathName (pathParent pb) ++ ": ", "body...", "face...", "eye...", "done.",
           s.dateAnimal ++ ": body video has been already analyzed",
           s.dateAnimal ++ ": face video has been already analyzed",
           s.dateAnimal ++ ": eye video has been already analyzed"],
          [], 6,
          [FSEffect.mkdtemp td,
           FSEffect.copyFile pb (pathChild td (pathName pb)),
           FSEffect.copyFile pf (pathChild td (pathName pf)),
           FSEffect.copyFile pe (pathChild td (pathName pe)),
           FSEffect.rmtree td]⟩)
    ∧ (ensure_dlc_output fs videos modelDirs roots false true ao td).2.toolCalls = 0
    ∧ (dlc_output_files_from_session fs s roots).1.has_all_files = true
    ∧ (ensure_dlc_output fs videos modelDirs roots false true ao td).1
      ≠ Except.ok (dlc_output_files_from_session fs s roots).1 := by
  have hmain : ensure_dlc_output fs videos modelDirs roots false true ao td
      = (Except.ok ⟨some s, DLCField.pyfile ⟨none, none⟩, DLCField.pyfile ⟨none, none⟩,
          DLCField.pyfile ⟨none, none⟩⟩,
         ⟨[s.dateAnimal ++ ": all videos have been already analyzed",
           "copying " ++ pathName (pathParent pb) ++ ": ", "body...", "face...", "eye...", "done.",
           s.dateAnimal ++ ": body video has been already analyzed",
           s.dateAnimal ++ ": face video has been already analyzed",
           s.dateAnimal ++ ": eye video has been already analyzed"],
          [], 6,
          [FSEffect.mkdtemp td,
           FSEffect.copyFile pb (pathChild td (pathName pb)),
           FSEffect.copyFile pf (pathChild td (pathName pf)),
           FSEffect.copyFile pe (pathChild td (pathName pe)),
           FSEffect.rmtree td]⟩) := by
    simp [ensure_dlc_output, dlc_config_files, video_views, View.label, View.key,
      hcb, hcf, hce, hs,
      dlc_output_files_from_session, find_dlc_output, hgb, hgf, hge, optPathField,
      DLCOutputFiles.construct, dlcFieldPostInit, DLCOutputFile.from_path, DLCOutputFile.empty,
      DLCOutputFiles.has_all_files, DLCOutputFiles.view, DLCField.is_available,
      DLCOutputFile.is_available, VideoFiles.copy_to_temp, VideoFiles.directory, hb, hf, hev,
      copy_views, VideoFiles.view, hkb, hkf, hke, lookupView, ensure_loop, ensure_cleanup,
      DLCOutputFiles.replace, pathParent_pathChild, msgTrace, effTrace, readsTrace, warnTrace,
      Trace.seq, Trace.empty, Except.map, List.lookup, String.append_assoc]
  refine ⟨hmain, ?_, ?_, ?_⟩
  · rw [hmain]
    simp [Trace.toolCalls, List.countP, List.countP.go]
  · simp [dlc_output_files_from_session, find_dlc_output, hgb, hgf, hge, optPathField,
      DLCOutputFiles.construct, dlcFieldPostInit, DLCOutputFile.from_path,
      DLCOutputFiles.has_all_files, DLCOutputFiles.view, DLCField.is_available,
      DLCOutputFile.is_available, video_views, View.label, View.key]
  · rw [hmain]
    simp [dlc_output_files_from_session, find_dlc_output, hgb, hgf, hge, optPathField,
      DLCOutputFiles.construct, dlcFieldPostInit, DLCOutputFile.from_path,
      DLCOutputFile.empty, View.label, View.key]

/-- C1 counterexample: in the all-outputs-present, overwrite=False
scenario the claim fails on the code: the returned bundle is not the
existing DLCOutputFiles (its view fields are wiped to empty records by
replace), and four messages ending in "already analyzed" are logged
rather than exactly one; the external tool is indeed invoked zero
times. -/
theorem C1_counterexample :
    filesAllDone.has_all_files = true
    ∧ ensureAllDone.1 ≠ Except.ok filesAllDone
    ∧ (ensureAllDone.2.msgs.filter (fun m => strEndsWith m "already analyzed")).length = 4
    ∧ (ensureAllDone.2.msgs.filter (fun m => strEndsWith m "already analyzed")).length ≠ 1
    ∧ ensureAllDone.2.toolCalls = 0 := by
  decide

theorem C1_all_done_behaviour_witness :
    ensure_dlc_output fsAllDone videos0 modelDirs0 dlcRoots0 false true (fun _ => none) td0
      = (Except.ok ⟨some sess0, DLCField.pyfile ⟨none, none⟩, DLCField.pyfile ⟨none, none⟩,
          DLCField.pyfile ⟨none, none⟩⟩,
         ⟨[sess0.dateAnimal ++ ": all videos have been already analyzed",
           "copying " ++ pathName (pathParent ["vids", "240101", "240101_A01", "v_Front_1.mp4"])
             ++ ": ", "body...", "face...", "eye...", "done.",
           sess0.dateAnimal ++ ": body video has been already analyzed",
           sess0.dateAnimal ++ ": face video has been already analyzed",
           sess0.dateAnimal ++ ": eye video has been already analyzed"],
          [], 6,
          [FSEffect.mkdtemp td0,
           FSEffect.copyFile ["vids", "240101", "240101_A01", "v_Front_1.mp4"]
             (pathChild td0 (pathName ["vids", "240101", "240101_A01", "v_Front_1.mp4"])),
           FSEffect.copyFile ["vids", "240101", "240101_A01", "v_Side_1.mp4"]
             (pathChild td0 (pathName ["vids", "240101", "240101_A01", "v_Side_1.mp4"])),
           FSEffect.copyFile ["vids", "240101", "240101_A01", "v_Eye_1.mp4"]
             (pathChild td0 (pathName ["vids", "240101", "240101_A01", "v_Eye_1.mp4"])),
           FSEffect.rmtree td0]⟩)
    ∧ (ensure_dlc_output fsAllDone videos0 modelDirs0 dlcRoots0 false true (fun _ => none)
        td0).2.toolCalls = 0 := by
  have h := C1_all_done_behaviour fsAllDone videos0 modelDirs0 dlcRoots0 (fun _ => none) td0
    sess0
    ["vids", "240101", "240101_A01", "v_Front_1.mp4"]
    ["vids", "240101", "240101_A01", "v_Side_1.mp4"]
    ["vids", "240101", "240101_A01", "v_Eye_1.mp4"]
    outB outF outE
    rfl rfl rfl rfl (by decide) (by decide) (by decide) (by decide) (by decide) (by decide)
    rfl rfl rfl
  exact ⟨h.1, h.2.1⟩

lemma find_dlc_output_snd (fs : FS) (dir : FPath) (k l : String) :
    (find_dlc_output fs dir k l).2 = readsTrace 1 := by
  cases hg : fs.glob dir ("*_" ++ l ++ "_*DLC*.h5") with
  | nil => simp [find_dlc_output, hg]
  | cons a rest => cases rest <;> simp [find_dlc_output, hg]

lemma dlc_files_trace (fs : FS) (s : Session) (roots : View → FPath) :
    (dlc_output_files_from_session fs s roots).2 = ⟨[], [], 3, []⟩ := by
  unfold dlc_output_files_from_session
  rcases hfb : find_dlc_output fs (find_dlc_output_dir s (roots View.body)) View.body.key
    View.body.label with ⟨rb, tb⟩
  rcases hff : find_dlc_output fs (find_dlc_output_dir s (roots View.face)) View.face.key
    View.face.label with ⟨rf2, tf⟩
  rcases hfe : find_dlc_output fs (find_dlc_output_dir s (roots View.eye)) View.eye.key
    View.eye.label with ⟨rE, te⟩
  have htb := find_dlc_output_snd fs (find_dlc_output_dir s (roots View.body)) View.body.key
    View.body.label
  have htf := find_dlc_output_snd fs (find_dlc_output_dir s (roots View.face)) View.face.key
    View.face.label
  have hte := find_dlc_output_snd fs (find_dlc_output_dir s (roots View.eye)) View.eye.key
    View.eye.label
  rw [hfb] at htb
  rw [hff] at htf
  rw [hfe] at hte
  simp only at htb htf hte
  subst htb htf hte
  cases rb <;> cases rf2 <;> cases rE <;>
    simp [hfb, hff, hfe, Trace.seq, readsTrace]

lemma dlc_config_files_snd (fs : FS) (m : View → FPath) :
    (dlc_config_files fs m).2 = readsTrace 3 := rfl

lemma copy_to_temp_error_rmtree (fs : FS) (v : VideoFiles) (td : FPath) (e : PyError)
    (t : Trace) (h : VideoFiles.copy_to_temp fs v td = (Except.error e, t)) :
    FSEffect.rmtree td ∈ t.effects := by
  obtain ⟨vs, vb, vf, ve⟩ := v
  cases vb with
  | none =>
    simp_all [VideoFiles.copy_to_temp, VideoFiles.directory, effTrace, Trace.seq, Trace.empty]
    rw [← h.2]
    simp
  | some b =>
    cases hkb : fs.copyFails b with
    | true =>
      simp_all [VideoFiles.copy_to_temp, VideoFiles.directory, copy_views, video_views,
        VideoFiles.view, effTrace, msgTrace, Trace.seq, Trace.empty]
      rw [← h.2]
      simp
    | false =>
      cases vf with
      | none =>
        cases ve with
        | none =>
          simp_all [VideoFiles.copy_to_temp, VideoFiles.directory, copy_views, video_views,
            VideoFiles.view, effTrace, msgTrace, Trace.seq, Trace.empty, Except.map]
        | some c =>
          cases hkc : fs.copyFails c with
          | true =>
            simp_all [VideoFiles.copy_to_temp, VideoFiles.directory, copy_views, video_views,
              VideoFiles.view, effTrace, msgTrace, Trace.seq, Trace.empty, Except.map]
            rw [← h.2]
            simp
          | false =>
            simp_all [VideoFiles.copy_to_temp, VideoFiles.directory, copy_views, video_views,
              VideoFiles.view, effTrace, msgTrace, Trace.seq, Trace.empty, Except.map]
      | some f2 =>
        cases hkf : fs.copyFails f2 with
        | true =>
          simp_all [VideoFiles.copy_to_temp, VideoFiles.directory, copy_views, video_views,
            VideoFiles.view, effTrace, msgTrace, Trace.seq, Trace.empty, Except.map]
          rw [← h.2]
          simp
        | false =>
          cases ve with
          | none =>
            simp_all [VideoFiles.copy_to_temp, VideoFiles.directory, copy_views, video_views,
              VideoFiles.view, effTrace, msgTrace, Trace.seq, Trace.empty, Except.map]
          | some c =>
            cases hkc : fs.copyFails c with
            | true =>
              simp_all [VideoFiles.copy_to_temp, VideoFiles.directory, copy_views, video_views,
                VideoFiles.view, effTrace, msgTrace, Trace.seq, Trace.empty, Except.map]
              rw [← h.2]
              simp
            | false =>
              simp_all [VideoFiles.copy_to_temp, VideoFiles.directory, copy_views, video_views,
                VideoFiles.view, effTrace, msgTrace, Trace.seq, Trace.empty, Except.map]

lemma copy_to_temp_ok_directory (fs : FS) (v : VideoFiles) (td : FPath) (tv : VideoFiles)
    (t : Trace) (h : VideoFiles.copy_to_temp fs v td = (Except.ok tv, t)) :
    tv.directory = some td := by
  obtain ⟨vs, vb, vf, ve⟩ := v
  cases vb with
  | none =>
    simp_all [VideoFiles.copy_to_temp, VideoFiles.directory, effTrace, Trace.seq, Trace.empty]
  | some b =>
    cases hkb : fs.copyFails b with
    | true =>
      simp_all [VideoFiles.copy_to_temp, VideoFiles.directory, copy_views, video_views,
        VideoFiles.view, effTrace, msgTrace, Trace.seq, Trace.empty]
    | false =>
      cases vf with
      | none =>
        cases ve with
        | none =>
          simp_all [VideoFiles.copy_to_temp, VideoFiles.directory, copy_views, video_views,
            VideoFiles.view, effTrace, msgTrace, Trace.seq, Trace.empty, Except.map,
            lookupView]
          rw [← h.1]
          simp [VideoFiles.directory, lookupView, pathParent_pathChild]
        | some c =>
          cases hkc : fs.copyFails c with
          | true =>
            simp_all [VideoFiles.copy_to_temp, VideoFiles.directory, copy_views, video_views,
              VideoFiles.view, effTrace, msgTrace, Trace.seq, Trace.empty, Except.map]
          | false =>
            simp_all [VideoFiles.copy_to_temp, VideoFiles.directory, copy_views, video_views,
              VideoFiles.view, effTrace, msgTrace, Trace.seq, Trace.empty, Except.map,
              lookupView]
            rw [← h.1]
            simp [VideoFiles.directory, lookupView, pathParent_pathChild]
      | some f2 =>
        cases hkf : fs.copyFails f2 with
        | true =>
          simp_all [VideoFiles.copy_to_temp, VideoFiles.directory, copy_views, video_views,
            VideoFiles.view, effTrace, msgTrace, Trace.seq, Trace.empty, Except.map]
        | false =>
          cases ve with
          | none =>
            simp_all [VideoFiles.copy_to_temp, VideoFiles.directory, copy_views, video_views,
              VideoFiles.view, effTrace, msgTrace, Trace.seq, Trace.empty, Except.map,
              lookupView]
            rw [← h.1]
            simp [VideoFiles.directory, lookupView, pathParent_pathChild]
          | some c =>
            cases hkc : fs.copyFails c with
            | true =>
              simp_all [VideoFiles.copy_to_temp, VideoFiles.directory, copy_views, video_views,
                VideoFiles.view, effTrace, msgTrace, Trace.seq, Trace.empty, Except.map]
            | false =>
              simp_all [VideoFiles.copy_to_temp, VideoFiles.directory, copy_views, video_views,
                VideoFiles.view, effTrace, msgTrace, Trace.seq, Trace.empty, Except.map,
                lookupView]
              rw [← h.1]
              simp [VideoFiles.directory, lookupView, pathParent_pathChild]

lemma ensure_mkdtemp_rmtree (fs : FS) (videos : VideoFiles) (modelDirs roots : View → FPath)
    (ow inst : Bool) (ao : View → Option PyError) (td : FPath) :
    FSEffect.mkdtemp td ∈ (ensure_dlc_output fs videos modelDirs roots ow inst ao td).2.effects →
    FSEffect.rmtree td ∈ (ensure_dlc_output fs videos modelDirs roots ow inst ao td).2.effects := by
  intro hmem
  rcases hcfg : dlc_config_files fs modelDirs with ⟨c1, ct⟩
  have hct : ct = readsTrace 3 := by
    have h3 := dlc_config_files_snd fs modelDirs
    rw [hcfg] at h3
    exact h3
  subst hct
  cases c1 with
  | error e =>
    rw [ensure_dlc_output] at hmem
    simp [hcfg, readsTrace] at hmem
  | ok configs =>
    cases hsess : videos.session with
    | none =>
      rw [ensure_dlc_output] at hmem
      simp [hcfg, hsess, readsTrace] at hmem
    | some s =>
      cases inst with
      | false =>
        rw [ensure_dlc_output] at hmem
        simp [hcfg, hsess, dlc_files_trace, readsTrace, Trace.seq, msgTrace] at hmem
        split at hmem <;> simp at hmem
      | true =>
        rcases hcopy : VideoFiles.copy_to_temp fs videos td with ⟨cc, ct2⟩
        cases cc with
        | error e =>
          have h1 : FSEffect.rmtree td ∈ ct2.effects :=
            copy_to_temp_error_rmtree fs videos td e ct2 hcopy
          rw [ensure_dlc_output]
          simp [hcfg, hsess, hcopy, Trace.seq, readsTrace, dlc_files_trace, msgTrace]
          split <;> simp [h1]
        | ok tv =>
          have hdir : tv.directory = some td := copy_to_temp_ok_directory fs videos td tv ct2 hcopy
          rw [ensure_dlc_output]
          rcases hloop : ensure_loop fs s configs (dlc_output_files_from_session fs s roots).1 tv
            ow ao video_views with ⟨l1, lt⟩
          cases l1 with
          | error e =>
            simp [hcfg, hsess, hcopy, hloop, ensure_cleanup, hdir, Trace.seq, readsTrace,
              dlc_files_trace, msgTrace, effTrace]
          | ok newly =>
            simp [hcfg, hsess, hcopy, hloop, ensure_cleanup, hdir, Trace.seq, readsTrace,
              dlc_files_trace, msgTrace, effTrace]

/-- C6: the temporary staging directory is removed on every exit path:
whenever a run of ensure_dlc_output records creating the staging
directory (success, per-view continue, or an exception raised mid-loop
by the external tool), its trace also records removing it; and whenever
copy_to_temp fails, its trace records removing the staging directory it
created before re-raising. -/
theorem C6_staging_cleanup :
    (∀ (fs : FS) (videos : VideoFiles) (modelDirs roots : View → FPath) (ow inst : Bool)
       (ao : View → Option PyError) (td : FPath),
      FSEffect.mkdtemp td ∈ (ensure_dlc_output fs videos modelDirs roots ow inst ao td).2.effects →
      FSEffect.rmtree td ∈ (ensure_dlc_output fs videos modelDirs roots ow inst ao td).2.effects)
    ∧ (∀ (fs : FS) (v : VideoFiles) (td : FPath) (e : PyError) (t : Trace),
      VideoFiles.copy_to_temp fs v td = (Except.error e, t) →
      FSEffect.rmtree td ∈ t.effects) :=
  ⟨fun fs videos modelDirs roots ow inst ao td =>
     ensure_mkdtemp_rmtree fs videos modelDirs roots ow inst ao td,
   fun fs v td e t h => copy_to_temp_error_rmtree fs v td e t h⟩

theorem C6_staging_cleanup_witness :
    FSEffect.rmtree td0 ∈ (ensure_dlc_output fsCfgOnly videos0 modelDirs0 dlcRoots0 false true
      (fun _ => some (PyError.runtimeError "tool crash")) td0).2.effects
    ∧ FSEffect.rmtree td0 ∈ (VideoFiles.copy_to_temp fsCopyFail videos0 td0).2.effects :=
  ⟨C6_staging_cleanup.1 fsCfgOnly videos0 modelDirs0 dlcRoots0 false true
     (fun _ => some (PyError.runtimeError "tool crash")) td0 (by decide),
   C6_staging_cleanup.2 fsCopyFail videos0 td0
     (PyError.typeError "exceptions must derive from BaseException")
     (VideoFiles.copy_to_temp fsCopyFail videos0 td0).2 (by decide)⟩
